import Mathlib

/-!
Verification of the stereo-geometry core of the Module7 repository
(`src/app.py`): the intrinsics scaler `get_scaled_intrinsics`, the depth
recovery route `calculate_stereo`, and the size recovery route
`calculate_size`.

Embedding conventions:
* Python floats are modelled as exact rationals (`ℚ`); `math.sqrt` is
  modelled by `Real.sqrt`, so the planar size lives in `ℝ`.
* The `round(x, 4)` / `round(x, 2)` applied when building the JSON payload
  is display formatting of the computed values (the interface contract
  treats the rounding precision as a presentation convention adjustable by
  the caller); we model the underlying computed values, which the code
  holds at full precision in `calculated_Z`, `disparity`, `real_size`,
  `dx`, `dy`.
* The Flask/JSON plumbing (request parsing, `jsonify`) is out of scope;
  the routes are modelled as functions of the already-extracted inputs
  `p_left`, `p_right`, `p1`, `p2`, `Z`, `img_w`, `img_h`.
-/

namespace Module7

/-- A pixel click `{x, y}`; coordinates may be fractional after scaling. -/
structure PixelPoint where
  x : ℚ
  y : ℚ
deriving DecidableEq

/-- Reference focal length x, `ORIG_FX = 991.396` (app.py line 8). -/
def ORIG_FX : ℚ := 991.396

/-- Reference focal length y, `ORIG_FY = 991.628` (app.py line 9). -/
def ORIG_FY : ℚ := 991.628

/-- Reference principal point x, `ORIG_CX = 671.244` (app.py line 10). -/
def ORIG_CX : ℚ := 671.244

/-- Reference principal point y, `ORIG_CY = 371.286` (app.py line 11). -/
def ORIG_CY : ℚ := 371.286

/-- Calibration image width, `CALIB_W = 1280` (app.py line 12). -/
def CALIB_W : ℚ := 1280

/-- Calibration image height, `CALIB_H = 720` (app.py line 13). -/
def CALIB_H : ℚ := 720

/-- Camera baseline displacement in cm, `BASELINE = 10.0` (app.py line 17). -/
def BASELINE : ℚ := 10.0

/-- The intrinsics scaler `get_scaled_intrinsics(img_w, img_h)` (app.py lines
25-38): rescales the
reference camera matrix to the actual image resolution, returning
`(fx, fy, cx, cy)`. -/
def get_scaled_intrinsics (img_w img_h : ℚ) : ℚ × ℚ × ℚ × ℚ :=
  let scale_x := img_w / CALIB_W
  let scale_y := img_h / CALIB_H
  let fx := ORIG_FX * scale_x
  let fy := ORIG_FY * scale_y
  let cx := ORIG_CX * scale_x
  let cy := ORIG_CY * scale_y
  (fx, fy, cx, cy)

/-- The stereo vision formula `calculated_Z = (fx * BASELINE) / disparity`
(app.py line 60). -/
def calculated_Z (fx disparity : ℚ) : ℚ :=
  (fx * BASELINE) / disparity

/-- Success payload of `calculate_stereo` (app.py lines 64-67), holding the
computed depth and disparity (rounded for display in the JSON layer). -/
structure StereoResult where
  Z : ℚ
  disparity : ℚ
deriving DecidableEq

/-- Depth recovery route `calculate_stereo` (app.py lines 41-67): computes the disparity
`d = |p_left.x - p_right.x|`, rejects `d < 1.0` with the error message of
line 57, and otherwise returns the depth `(fx * BASELINE) / d` with the
`fx` scaled to the supplied image dimensions. -/
def calculate_stereo (p_left p_right : PixelPoint) (img_w img_h : ℚ) :
    Except String StereoResult :=
  let i := get_scaled_intrinsics img_w img_h
  let fx := i.1
  let disparity := |p_left.x - p_right.x|
  if disparity < 1.0 then
    Except.error
      "Disparity is too small (d < 1.0). You clicked the same pixel or close to it!"
  else
    Except.ok { Z := calculated_Z fx disparity, disparity := disparity }

/-- Payload of `calculate_size` (app.py lines 95-99), holding the computed
planar size and the absolute per-axis displacements (rounded for display in
the JSON layer). -/
structure SizeResult where
  size_cm : ℝ
  dX : ℚ
  dY : ℚ

/-- Size recovery route `calculate_size` (app.py lines 70-99): back-projects the two pixels to
the plane at depth `Z` using the scaled intrinsics,
`X = (pixel.x - cx) * Z / fx`, `Y = (pixel.y - cy) * Z / fy`, and returns
the planar Euclidean distance `sqrt(dx^2 + dy^2)` together with `|dx|`,
`|dy|`. -/
noncomputable def calculate_size (p1 p2 : PixelPoint) (Z img_w img_h : ℚ) :
    SizeResult :=
  let i := get_scaled_intrinsics img_w img_h
  let fx := i.1
  let fy := i.2.1
  let cx := i.2.2.1
  let cy := i.2.2.2
  let X1 := (p1.x - cx) * Z / fx
  let Y1 := (p1.y - cy) * Z / fy
  let X2 := (p2.x - cx) * Z / fx
  let Y2 := (p2.y - cy) * Z / fy
  let dx := X2 - X1
  let dy := Y2 - Y1
  let real_size := Real.sqrt ((dx : ℝ) ^ 2 + (dy : ℝ) ^ 2)
  { size_cm := real_size, dX := |dx|, dY := |dy| }

/-- Spec-side model of back-projection (spec section 4.2, recover_size):
`X = (pixel.x - cx) * depth / fx`, `Y = (pixel.y - cy) * depth / fy`. -/
def back_project_spec (p : PixelPoint) (depth fx fy cx cy : ℚ) : ℚ × ℚ :=
  ((p.x - cx) * depth / fx, (p.y - cy) * depth / fy)

/-- Spec-side model of the size result (spec section 4.2, recover_size):
the 2D Euclidean distance between the two back-projected points, together
with the absolute per-axis displacements. -/
noncomputable def recover_size_spec (p1 p2 : PixelPoint) (depth fx fy cx cy : ℚ) :
    ℝ × ℚ × ℚ :=
  let q1 := back_project_spec p1 depth fx fy cx cy
  let q2 := back_project_spec p2 depth fx fy cx cy
  (Real.sqrt (((q2.1 - q1.1 : ℚ) : ℝ) ^ 2 + ((q2.2 - q1.2 : ℚ) : ℝ) ^ 2),
    |q2.1 - q1.1|, |q2.2 - q1.2|)

/-- Closed form of `calculate_stereo`: shared unfolding lemma. -/
theorem calculate_stereo_eq (p_left p_right : PixelPoint) (img_w img_h : ℚ) :
    calculate_stereo p_left p_right img_w img_h =
      if |p_left.x - p_right.x| < 1 then
        Except.error
          "Disparity is too small (d < 1.0). You clicked the same pixel or close to it!"
      else
        Except.ok
          { Z := ORIG_FX * (img_w / CALIB_W) * BASELINE / |p_left.x - p_right.x|,
            disparity := |p_left.x - p_right.x| } := by
  rw [calculate_stereo]
  norm_num [get_scaled_intrinsics, calculated_Z]

/-- C1: for positive image dimensions and disparity `d ≥ 1.0`, depth
recovery succeeds and returns exactly `(fx * baseline) / d` with `fx` the
scaled focal length; in particular at 1280x720 with p_left=(400,300),
p_right=(380,300) the disparity is 20.0 and the depth is 495.698. -/
theorem calculate_stereo_depth_formula (p_left p_right : PixelPoint)
    (img_w img_h : ℚ) (hw : 0 < img_w) (hh : 0 < img_h)
    (hd : 1 ≤ |p_left.x - p_right.x|) :
    calculate_stereo p_left p_right img_w img_h =
      Except.ok
        { Z := (get_scaled_intrinsics img_w img_h).1 * BASELINE /
            |p_left.x - p_right.x|,
          disparity := |p_left.x - p_right.x| } ∧
    calculate_stereo ⟨400, 300⟩ ⟨380, 300⟩ 1280 720 =
      Except.ok { Z := 495.698, disparity := 20 } := by
  constructor
  · rw [calculate_stereo, if_neg (by rw [not_lt]; exact le_trans (by norm_num) hd)]
    rfl
  · rw [calculate_stereo]
    norm_num [get_scaled_intrinsics, calculated_Z, ORIG_FX, CALIB_W, BASELINE,
      abs_of_nonneg]

/-- C1 witness: the universal part instantiated at the concrete scenario. -/
theorem calculate_stereo_depth_formula_witness :
    calculate_stereo ⟨400, 300⟩ ⟨380, 300⟩ 1280 720 =
      Except.ok
        { Z := (get_scaled_intrinsics 1280 720).1 * BASELINE /
            |(400 : ℚ) - 380|,
          disparity := |(400 : ℚ) - 380| } :=
  (calculate_stereo_depth_formula ⟨400, 300⟩ ⟨380, 300⟩ 1280 720
    (by norm_num) (by norm_num) (by norm_num)).1

/-- C2: depth recovery fails (with the disparity-too-small error) if and
only if `|p_left.x - p_right.x| < 1.0`; in particular a disparity of
exactly 1.0 px succeeds (depth 9913.96) and one of 0.999 px fails. -/
theorem calculate_stereo_error_iff (p_left p_right : PixelPoint)
    (img_w img_h : ℚ) :
    ((∃ e, calculate_stereo p_left p_right img_w img_h = Except.error e) ↔
      |p_left.x - p_right.x| < 1) ∧
    calculate_stereo ⟨400, 300⟩ ⟨399, 300⟩ 1280 720 =
      Except.ok { Z := 9913.96, disparity := 1 } ∧
    calculate_stereo ⟨400, 300⟩ ⟨399.001, 300⟩ 1280 720 =
      Except.error
        "Disparity is too small (d < 1.0). You clicked the same pixel or close to it!" := by
  refine ⟨?_, ?_, ?_⟩
  · rw [calculate_stereo_eq]
    split_ifs with h
    · simpa using h
    · simp [h]
  · rw [calculate_stereo_eq]
    norm_num [abs_of_nonneg, ORIG_FX, CALIB_W, BASELINE]
  · rw [calculate_stereo_eq]
    norm_num [abs_of_nonneg, ORIG_FX, CALIB_W, BASELINE]

/-- C4: the intrinsics scaler multiplies the reference values
fx=991.396, fy=991.628, cx=671.244, cy=371.286 (calibrated at 1280x720) by
the per-axis resolution ratios; doubling the image width doubles fx and cx
and leaves fy and cy unchanged. -/
theorem get_scaled_intrinsics_formula (img_w img_h : ℚ)
    (hw : 0 < img_w) (hh : 0 < img_h) :
    get_scaled_intrinsics img_w img_h =
      (991.396 * (img_w / 1280), 991.628 * (img_h / 720),
        671.244 * (img_w / 1280), 371.286 * (img_h / 720)) ∧
    (get_scaled_intrinsics (2 * img_w) img_h).1 =
      2 * (get_scaled_intrinsics img_w img_h).1 ∧
    (get_scaled_intrinsics (2 * img_w) img_h).2.2.1 =
      2 * (get_scaled_intrinsics img_w img_h).2.2.1 ∧
    (get_scaled_intrinsics (2 * img_w) img_h).2.1 =
      (get_scaled_intrinsics img_w img_h).2.1 ∧
    (get_scaled_intrinsics (2 * img_w) img_h).2.2.2 =
      (get_scaled_intrinsics img_w img_h).2.2.2 := by
  refine ⟨rfl, ?_, ?_, ?_, ?_⟩ <;>
    simp only [get_scaled_intrinsics] <;> ring

/-- C4 witness: instantiation at the calibration resolution itself. -/
theorem get_scaled_intrinsics_formula_witness :
    get_scaled_intrinsics 1280 720 =
      (991.396 * ((1280 : ℚ) / 1280), 991.628 * ((720 : ℚ) / 720),
        671.244 * ((1280 : ℚ) / 1280), 371.286 * ((720 : ℚ) / 720)) :=
  (get_scaled_intrinsics_formula 1280 720 (by norm_num) (by norm_num)).1

/-- C5 (divergence evidence): called with `img_w = 0`, `calculate_stereo`
does not signal any precondition error; the scaled `fx` collapses to 0 and
the route silently returns depth `Z = 0`. -/
theorem calculate_stereo_zero_width :
    calculate_stereo ⟨400, 300⟩ ⟨380, 300⟩ 0 720 =
      Except.ok { Z := 0, disparity := 20 } := by
  rw [calculate_stereo_eq]
  norm_num [abs_of_nonneg]

/-- C6: with positive image dimensions and disparity at least 1.0, depth
recovery succeeds and the computed depth is strictly positive (and, the
embedding being exact rational arithmetic, finite by construction). -/
theorem calculate_stereo_depth_pos (p_left p_right : PixelPoint)
    (img_w img_h : ℚ) (hw : 0 < img_w) (hh : 0 < img_h)
    (hd : 1 ≤ |p_left.x - p_right.x|) :
    ∃ r, calculate_stereo p_left p_right img_w img_h = Except.ok r ∧
      0 < r.Z := by
  rw [calculate_stereo_eq, if_neg (not_lt.mpr hd)]
  refine ⟨_, rfl, ?_⟩
  show (0 : ℚ) <
    ORIG_FX * (img_w / CALIB_W) * BASELINE / |p_left.x - p_right.x|
  have hd0 : (0 : ℚ) < |p_left.x - p_right.x| := lt_of_lt_of_le one_pos hd
  have hfx : (0 : ℚ) < ORIG_FX * (img_w / CALIB_W) * BASELINE := by
    have h1 : (0 : ℚ) < ORIG_FX := by norm_num [ORIG_FX]
    have h2 : (0 : ℚ) < img_w / CALIB_W :=
      div_pos hw (by norm_num [CALIB_W])
    have h3 : (0 : ℚ) < BASELINE := by norm_num [BASELINE]
    exact mul_pos (mul_pos h1 h2) h3
  exact div_pos hfx hd0

/-- C6 witness: the concrete 1280x720 scenario has positive depth. -/
theorem calculate_stereo_depth_pos_witness :
    ∃ r, calculate_stereo ⟨400, 300⟩ ⟨380, 300⟩ 1280 720 = Except.ok r ∧
      0 < r.Z :=
  calculate_stereo_depth_pos ⟨400, 300⟩ ⟨380, 300⟩ 1280 720
    (by norm_num) (by norm_num) (by norm_num)

/-- C7: for fixed positive fx (the intrinsics invariant fx > 0) and the
fixed baseline, the computed depth is strictly decreasing in the
disparity on the admissible range `d ≥ 1.0`. -/
theorem calculated_Z_strict_anti (fx d1 d2 : ℚ) (hfx : 0 < fx)
    (h1 : 1 ≤ d1) (h12 : d1 < d2) :
    calculated_Z fx d2 < calculated_Z fx d1 := by
  unfold calculated_Z
  have hb : (0 : ℚ) < fx * BASELINE :=
    mul_pos hfx (by norm_num [BASELINE])
  exact div_lt_div_of_pos_left hb (lt_of_lt_of_le one_pos h1) h12

/-- C7 witness: at the reference fx, depth at disparity 2 is below depth
at disparity 1. -/
theorem calculated_Z_strict_anti_witness :
    calculated_Z 991.396 2 < calculated_Z 991.396 1 :=
  calculated_Z_strict_anti 991.396 1 2 (by norm_num) le_rfl (by norm_num)

/-- C3: size recovery agrees with the spec-side model: each point is
back-projected as `X = (pixel.x - cx) * Z / fx`, `Y = (pixel.y - cy) * Z / fy`
with the scaled intrinsics, and the result is the planar distance
`sqrt((X2-X1)^2 + (Y2-Y1)^2)` together with `|dX|` and `|dY|`. -/
theorem calculate_size_matches_spec (p1 p2 : PixelPoint) (Z img_w img_h : ℚ)
    (hw : 0 < img_w) (hh : 0 < img_h) :
    (calculate_size p1 p2 Z img_w img_h).size_cm =
      (recover_size_spec p1 p2 Z (get_scaled_intrinsics img_w img_h).1
        (get_scaled_intrinsics img_w img_h).2.1
        (get_scaled_intrinsics img_w img_h).2.2.1
        (get_scaled_intrinsics img_w img_h).2.2.2).1 ∧
    (calculate_size p1 p2 Z img_w img_h).dX =
      (recover_size_spec p1 p2 Z (get_scaled_intrinsics img_w img_h).1
        (get_scaled_intrinsics img_w img_h).2.1
        (get_scaled_intrinsics img_w img_h).2.2.1
        (get_scaled_intrinsics img_w img_h).2.2.2).2.1 ∧
    (calculate_size p1 p2 Z img_w img_h).dY =
      (recover_size_spec p1 p2 Z (get_scaled_intrinsics img_w img_h).1
        (get_scaled_intrinsics img_w img_h).2.1
        (get_scaled_intrinsics img_w img_h).2.2.1
        (get_scaled_intrinsics img_w img_h).2.2.2).2.2 :=
  ⟨rfl, rfl, rfl⟩

/-- C3 witness: the spec agreement at the concrete continued scenario
(p1=(400,300), p2=(450,300), depth 495.698, 1280x720 image). -/
theorem calculate_size_matches_spec_witness :
    (calculate_size ⟨400, 300⟩ ⟨450, 300⟩ 495.698 1280 720).size_cm =
      (recover_size_spec ⟨400, 300⟩ ⟨450, 300⟩ 495.698
        (get_scaled_intrinsics 1280 720).1
        (get_scaled_intrinsics 1280 720).2.1
        (get_scaled_intrinsics 1280 720).2.2.1
        (get_scaled_intrinsics 1280 720).2.2.2).1 :=
  (calculate_size_matches_spec ⟨400, 300⟩ ⟨450, 300⟩ 495.698 1280 720
    (by norm_num) (by norm_num)).1

/-- C8: size recovery at two identical points returns size 0 and
dX = dY = 0. -/
theorem calculate_size_same_point (p : PixelPoint) (Z img_w img_h : ℚ)
    (hw : 0 < img_w) (hh : 0 < img_h) :
    (calculate_size p p Z img_w img_h).size_cm = 0 ∧
    (calculate_size p p Z img_w img_h).dX = 0 ∧
    (calculate_size p p Z img_w img_h).dY = 0 := by
  simp only [calculate_size]
  norm_num [Real.sqrt_eq_zero']

/-- C8 witness: concrete instantiation at p=(400,300), Z=495.698,
1280x720. -/
theorem calculate_size_same_point_witness :
    (calculate_size ⟨400, 300⟩ ⟨400, 300⟩ 495.698 1280 720).size_cm = 0 ∧
    (calculate_size ⟨400, 300⟩ ⟨400, 300⟩ 495.698 1280 720).dX = 0 ∧
    (calculate_size ⟨400, 300⟩ ⟨400, 300⟩ 495.698 1280 720).dY = 0 :=
  calculate_size_same_point ⟨400, 300⟩ 495.698 1280 720
    (by norm_num) (by norm_num)

/-- C9: size recovery is symmetric in its two points: swapping p1 and p2
leaves size, dX and dY unchanged. -/
theorem calculate_size_symm (p1 p2 : PixelPoint) (Z img_w img_h : ℚ)
    (hw : 0 < img_w) (hh : 0 < img_h) :
    (calculate_size p2 p1 Z img_w img_h).size_cm =
      (calculate_size p1 p2 Z img_w img_h).size_cm ∧
    (calculate_size p2 p1 Z img_w img_h).dX =
      (calculate_size p1 p2 Z img_w img_h).dX ∧
    (calculate_size p2 p1 Z img_w img_h).dY =
      (calculate_size p1 p2 Z img_w img_h).dY := by
  simp only [calculate_size]
  refine ⟨?_, abs_sub_comm _ _, abs_sub_comm _ _⟩
  congr 1
  push_cast
  ring

/-- C9 witness: symmetry at the concrete pair (400,300), (450,320). -/
theorem calculate_size_symm_witness :
    (calculate_size ⟨450, 320⟩ ⟨400, 300⟩ 495.698 1280 720).size_cm =
      (calculate_size ⟨400, 300⟩ ⟨450, 320⟩ 495.698 1280 720).size_cm :=
  (calculate_size_symm ⟨400, 300⟩ ⟨450, 320⟩ 495.698 1280 720
    (by norm_num) (by norm_num)).1

/-- C10: the planar distance (before display rounding) is homogeneous of
degree 1 in depth: scaling the depth by any k ≥ 0 scales the size by k. -/
theorem calculate_size_depth_homogeneous (p1 p2 : PixelPoint)
    (Z k img_w img_h : ℚ) (hk : 0 ≤ k) (hw : 0 < img_w) (hh : 0 < img_h) :
    (calculate_size p1 p2 (k * Z) img_w img_h).size_cm =
      (k : ℝ) * (calculate_size p1 p2 Z img_w img_h).size_cm := by
  simp only [calculate_size]
  generalize (get_scaled_intrinsics img_w img_h).1 = fx
  generalize (get_scaled_intrinsics img_w img_h).2.1 = fy
  generalize (get_scaled_intrinsics img_w img_h).2.2.1 = cx
  generalize (get_scaled_intrinsics img_w img_h).2.2.2 = cy
  have hdx : (p2.x - cx) * (k * Z) / fx - (p1.x - cx) * (k * Z) / fx =
      k * ((p2.x - cx) * Z / fx - (p1.x - cx) * Z / fx) := by ring
  have hdy : (p2.y - cy) * (k * Z) / fy - (p1.y - cy) * (k * Z) / fy =
      k * ((p2.y - cy) * Z / fy - (p1.y - cy) * Z / fy) := by ring
  rw [hdx, hdy]
  have key : ∀ a b : ℚ,
      Real.sqrt (((k * a : ℚ) : ℝ) ^ 2 + ((k * b : ℚ) : ℝ) ^ 2) =
        (k : ℝ) * Real.sqrt ((a : ℝ) ^ 2 + (b : ℝ) ^ 2) := by
    intro a b
    have h1 : ((k * a : ℚ) : ℝ) ^ 2 + ((k * b : ℚ) : ℝ) ^ 2 =
        (k : ℝ) ^ 2 * ((a : ℝ) ^ 2 + (b : ℝ) ^ 2) := by
      push_cast
      ring
    rw [h1, Real.sqrt_mul (sq_nonneg _), Real.sqrt_sq (by exact_mod_cast hk)]
  exact key _ _

/-- C10 witness: doubling the depth doubles the size at a concrete input. -/
theorem calculate_size_depth_homogeneous_witness :
    (calculate_size ⟨400, 300⟩ ⟨450, 320⟩ ((2 : ℚ) * 495.698) 1280 720).size_cm =
      ((2 : ℚ) : ℝ) *
        (calculate_size ⟨400, 300⟩ ⟨450, 320⟩ 495.698 1280 720).size_cm :=
  calculate_size_depth_homogeneous ⟨400, 300⟩ ⟨450, 320⟩ 495.698 2 1280 720
    (by norm_num) (by norm_num) (by norm_num)

end Module7
